import Mathlib

/-!
# Verification of the curiefense request-analysis pipeline

Shallow embedding of `curiefense/src/analyze.rs` and
`curiefense/src/grasshopper.rs`.  Pure data and control flow are translated
directly from the Rust source.  External collaborators that are not part of
the two source files (the decision/tag interface helpers, the ACL matcher,
the flow/limit resolvers, the content-filter matcher, the redis client) are
modelled from the specification, either as concrete definitions marked
`Modelled from the spec:` or as explicit function parameters (`Ext`,
`RedisEnv`) of the pipeline functions.
-/

namespace Curiefense

/-- Modelled from the spec: the `Location` enumeration of request parts that
tags and block reasons point into (`interface` module, not under `src/`). -/
inductive Location where
  | Request
  | Headers
  | Cookies
  | Body
  | UriPath
  | Attrs
deriving Repr, DecidableEq, BEq

/-- Modelled from the spec: a tag set maps qualified tag names to the union
of the locations they were inserted at; insertion is idempotent and
locations union on re-insertion (`Tags` in the `interface` module, not under
`src/`). -/
structure Tags where
  entries : List (String × List Location)
deriving Repr, DecidableEq

/-- Membership test for a tag name. -/
def Tags.hasTag (t : Tags) (n : String) : Bool :=
  t.entries.any (fun e => e.1 == n)

/-- Union of two location lists (set semantics on the location component). -/
def mergeLocs (a b : List Location) : List Location :=
  a ++ b.filter (fun l => !(a.contains l))

/-- Modelled from the spec: `Tags::insert_locs` — insert a tag with a set of
locations; if present, its locations union. -/
def Tags.insert_locs (t : Tags) (n : String) (locs : List Location) : Tags :=
  if t.hasTag n then
    ⟨t.entries.map (fun e => if e.1 == n then (e.1, mergeLocs e.2 locs) else e)⟩
  else
    ⟨t.entries ++ [(n, locs)]⟩

/-- Modelled from the spec: `Tags::insert` with one location. -/
def Tags.insert (t : Tags) (n : String) (loc : Location) : Tags :=
  t.insert_locs n [loc]

/-- Modelled from the spec: `Tags::insert_qualified` inserts `k:v`. -/
def Tags.insert_qualified (t : Tags) (k v : String) (loc : Location) : Tags :=
  t.insert (k ++ ":" ++ v) loc

/-- `a` is a tag-subset of `b`: every tag name of `a` is present in `b`. -/
def Tags.subsetOf (a b : Tags) : Prop :=
  ∀ n, a.hasTag n = true → b.hasTag n = true

/-- Modelled from the spec: severity of a block reason —
`Blocking`, `Monitor`, or demoted-to-inactive. -/
inductive BDecision where
  | Monitor
  | Blocking
  | InactiveBlocking
deriving Repr, DecidableEq, BEq

/-- Modelled from the spec: `inactive()` demotes `Blocking` to observation. -/
def BDecision.inactive : BDecision → BDecision
  | .Blocking => .InactiveBlocking
  | d => d

/-- Modelled from the spec: the kind of a response action
(`Pass < Monitor < RequestHeader < AltResponse < Block`). -/
inductive ActionType where
  | Monitor
  | RequestHeader
  | AltResponse
  | Block
deriving Repr, DecidableEq, BEq

/-- An `Action` as used by `grasshopper.rs`: kind, block mode, optional
response headers, HTTP status, response body and extra tags. -/
structure Action where
  atype : ActionType
  block_mode : Bool
  headers : Option (List (String × String))
  status : Nat
  content : String
  extra_tags : Option (List String)
deriving Repr, DecidableEq

/-- Modelled from the spec: a structured block reason with an initiator,
a detail string, a severity and locations (`BlockReason` in the `interface`
module, not under `src/`). -/
structure BlockReason where
  initiator : String
  detail : String
  decision : BDecision
  location : List Location
deriving Repr, DecidableEq

/-- Modelled from the spec: `BlockReason::phase01_unknown` — a blocking
reason carrying the bot-detector error message. -/
def BlockReason.phase01_unknown (msg : String) : BlockReason :=
  ⟨"phase01", msg, .Blocking, [Location.Request]⟩

/-- Modelled from the spec: `BlockReason::body_malformed` — a blocking
reason for a failed body decoding, located at the body. -/
def BlockReason.body_malformed (rr : String) : BlockReason :=
  ⟨"body_malformed", rr, .Blocking, [Location.Body]⟩

/-- Modelled from the spec: the ACL outcome category. -/
inductive AclStage where
  | Allow
  | Deny
  | Bypass
  | ForceDeny
  | HumanOnly
  | BotOnly
deriving Repr, DecidableEq, BEq

/-- Modelled from the spec: severity of an ACL block reason by stage —
deny-like stages are `Blocking`, allow-like stages are `Monitor`. -/
def AclStage.severity : AclStage → BDecision
  | .Deny => .Blocking
  | .ForceDeny => .Blocking
  | .HumanOnly => .Blocking
  | .BotOnly => .Blocking
  | .Allow => .Monitor
  | .Bypass => .Monitor

/-- Modelled from the spec: `BlockReason::acl` built from the matched tags
and the ACL stage. -/
def BlockReason.acl (tags : List String) (stage : AclStage) : BlockReason :=
  ⟨"acl", String.intercalate " " tags, stage.severity, [Location.Request]⟩

/-- A `Decision`: an optional action plus accumulated block reasons. -/
structure Decision where
  maction : Option Action
  reasons : List BlockReason
deriving Repr, DecidableEq

/-- `Decision::pass` — non-final carrier of observations. -/
def Decision.pass (reasons : List BlockReason) : Decision :=
  ⟨none, reasons⟩

/-- `Decision::action` — potentially final. -/
def Decision.action (a : Action) (reasons : List BlockReason) : Decision :=
  ⟨some a, reasons⟩

/-- Strength of an action kind for decision merging. -/
def ActionType.strength : ActionType → Nat
  | .Monitor => 1
  | .RequestHeader => 2
  | .AltResponse => 3
  | .Block => 4

/-- Strength of a decision (0 when it carries no action). -/
def Decision.strength (d : Decision) : Nat :=
  match d.maction with
  | none => 0
  | some a => a.atype.strength

/-- Modelled from the spec: `is_final()` holds iff the action's kind implies
the request must not continue downstream (a blocking `Block` or
challenge-bearing `AltResponse`). -/
def Decision.is_final (d : Decision) : Bool :=
  match d.maction with
  | none => false
  | some a =>
    match a.atype with
    | .Block => a.block_mode
    | .AltResponse => a.block_mode
    | _ => false

/-- Modelled from the spec: `merge_decisions` — reasons concatenate; the
stronger action wins; a tie is broken by taking the later; `block_mode` ORs
when both are `Block`. -/
def merge_decisions (a b : Decision) : Decision :=
  let reasons := a.reasons ++ b.reasons
  let maction :=
    if b.strength < a.strength then a.maction
    else if a.strength < b.strength then b.maction
    else
      match a.maction, b.maction with
      | some aa, some ba =>
        some (if aa.atype == ActionType.Block && ba.atype == ActionType.Block
              then { ba with block_mode := aa.block_mode || ba.block_mode }
              else ba)
      | _, mb => mb
  ⟨maction, reasons⟩

/-! ## Grasshopper (bot detector) — `grasshopper.rs` -/

/-- `PrecisionLevel` from `grasshopper.rs`. -/
inductive PrecisionLevel where
  | Active
  | Passive
  | Interactive
  | MobileSdk
  | Emulator
  | Invalid
deriving Repr, DecidableEq, BEq

/-- `PrecisionLevel::is_human` from `grasshopper.rs`: any level except
`Invalid` and `Emulator`. -/
def PrecisionLevel.is_human (p : PrecisionLevel) : Bool :=
  (p != PrecisionLevel.Invalid) && (p != PrecisionLevel.Emulator)

/-- `GHMode` from `grasshopper.rs`. -/
inductive GHMode where
  | Passive
  | Active
  | Interactive
deriving Repr, DecidableEq, BEq

/-- `GHQuery` from `grasshopper.rs`: header and cookie maps, client ip and
protocol (maps are modelled as association lists). -/
structure GHQuery where
  headers : List (String × String)
  cookies : List (String × String)
  ip : String
  protocol : String
deriving Repr, DecidableEq

/-- `GHResponse` from `grasshopper.rs`. -/
structure GHResponse where
  precision_level : PrecisionLevel
  str_response : String
  headers : List (String × String)
  status_code : Nat
deriving Repr, DecidableEq

/-- The `Grasshopper` capability trait from `grasshopper.rs`, as a record of
pure fallible operations. -/
structure Grasshopper where
  is_human : GHQuery → Except String PrecisionLevel
  init_challenge : GHQuery → GHMode → Except String GHResponse
  verify_challenge : List (String × String) → Except String String
  should_provide_app_sig : List (String × String) → Except String GHResponse
  handle_bio_report : GHQuery → PrecisionLevel → Except String GHResponse

/-- `DummyGrasshopper` from `grasshopper.rs`: fails every call. -/
def DummyGrasshopper : Grasshopper where
  is_human _ := .error "not implemented"
  init_challenge _ _ := .error "not implemented"
  verify_challenge _ := .error "not implemented"
  should_provide_app_sig _ := .error "not implemented"
  handle_bio_report _ _ := .error "not implemented"

/-- Modelled from the spec: the body decoding result computed by the request
parser (`utils` module, not under `src/`): decoded, or failed with a reason. -/
inductive BodyDecodingResult where
  | Decoded
  | DecodingFailed (rr : String)
deriving Repr, DecidableEq

/-- Rust `str::starts_with` on character lists (first argument is the
pattern). -/
def strStarts : List Char → List Char → Bool
  | [], _ => true
  | _ :: _, [] => false
  | p :: ps, c :: cs => p == c && strStarts ps cs

/-- Rust `str::starts_with`: bit-exact prefix match, no normalization. -/
def starts_with (s pat : String) : Bool :=
  strStarts pat.data s.data

/-- Rust `str::replace('=', "-")`: every `=` character becomes `-`. -/
def replaceEqDash (s : String) : String :=
  String.mk (s.data.map (fun c => if c == '=' then '-' else c))

/-- Opaque limit rule from the policy (`config` module, not under `src/`). -/
abbrev LimitRule := Nat

/-- Modelled from the spec: a configured action from the policy
(`SimpleAction`, not under `src/`): kind, enforcement flag, HTTP status,
body, and the tags it inserts when applied. -/
structure SimpleAction where
  atype : ActionType
  block_mode : Bool
  status : Nat
  content : String
  extra_tags : List String
deriving Repr, DecidableEq

/-- `AclProfile` fields used by the pipeline. -/
structure AclProfile where
  id : String
  name : String
  tags : List String
  action : SimpleAction
deriving Repr, DecidableEq

/-- `ContentFilterProfile` fields used by the pipeline. -/
structure ContentFilterProfile where
  id : String
  name : String
  content_type : List String
  tags : List String
  action : SimpleAction
deriving Repr, DecidableEq

/-- `SecurityPolicy` fields used by the pipeline. -/
structure SecurityPolicy where
  policy_name : String
  entry_name : String
  acl_profile : AclProfile
  content_filter_profile : ContentFilterProfile
  limits : List LimitRule
  acl_active : Bool
  content_filter_active : Bool
deriving Repr, DecidableEq

/-- `RequestInfo` fields used by the pipeline (header/cookie maps as
association lists; `uri` is `rinfo.qinfo.uri`). -/
structure RequestInfo where
  headers : List (String × String)
  cookies : List (String × String)
  ipstr : String
  protocol : Option String
  uri : String
  body_decoding : BodyDecodingResult
  secpolicy : SecurityPolicy
deriving Repr, DecidableEq

/-- Modelled from the spec: PII masking of the request info for the log
record is out of scope; modelled as the identity. -/
def masking (r : RequestInfo) : RequestInfo := r

/-- Modelled from the spec: `SimpleAction::to_decision` (`interface`
module, not under `src/`) applies a configured action: it builds a decision
of the action's kind carrying the given reasons, and inserts the action's
extra tags. -/
def SimpleAction.to_decision (a : SimpleAction) (_pl : PrecisionLevel)
    (_mgh : Option Grasshopper) (_ri : RequestInfo) (tags : Tags)
    (reasons : List BlockReason) : Decision × Tags :=
  (Decision.action ⟨a.atype, a.block_mode, none, a.status, a.content, none⟩ reasons,
   a.extra_tags.foldl (fun t s => t.insert s Location.Request) tags)

/-- `gh_fail_decision` from `grasshopper.rs`: the fail-safe decision for
bot-detector errors. -/
def gh_fail_decision (reason : String) : Decision :=
  Decision.action
    ⟨ActionType.Block, true, none, 500, "internal_error", none⟩
    [BlockReason.phase01_unknown reason]

/-- The `GHQuery` built by `challenge_phase01` and `handle_bio_reports`
from the request info. -/
def ghQueryOf (rinfo : RequestInfo) : GHQuery :=
  ⟨rinfo.headers, rinfo.cookies, rinfo.ipstr, rinfo.protocol.getD "https"⟩

/-- `challenge_phase01` from `grasshopper.rs`. -/
def challenge_phase01 (gh : Grasshopper) (rinfo : RequestInfo)
    (reasons : List BlockReason) (mode : GHMode) : Decision :=
  match gh.init_challenge (ghQueryOf rinfo) mode with
  | .error rr => gh_fail_decision rr
  | .ok gh_response =>
    Decision.action
      ⟨ActionType.Block, true, some gh_response.headers, 247,
        gh_response.str_response, some ["challenge_phase01"]⟩
      reasons

/-- The phase-02 challenge-verification magic URI prefix. -/
def phase02Uri : String :=
  "/7060ac19f50208cbb6b45328ef94140a612ee92387e015594234077b4d1e64f1"

/-- `challenge_phase02` from `grasshopper.rs`. -/
def challenge_phase02 (gh : Grasshopper) (reqinfo : RequestInfo) : Option Decision :=
  if !(starts_with reqinfo.uri phase02Uri) then none
  else
    match gh.verify_challenge reqinfo.headers with
    | .error _ => none
    | .ok verified =>
      let cookie := "rbzid=" ++ replaceEqDash verified ++ "; Path=/; HttpOnly"
      some (Decision.action
        ⟨ActionType.Block, true, some [("Set-Cookie", cookie)], 248,
          "\x7b\x7d", some ["challenge_phase02"]⟩
        [])

/-- The app-signature magic URI prefix. -/
def appSigUri : String := "/74d8-ffc3-0f63-4b3c-c5c9-5699-6d5b-3a1"

/-- `check_app_sig` from `grasshopper.rs`. -/
def check_app_sig (gh : Grasshopper) (reqinfo : RequestInfo) : Option Decision :=
  if !(starts_with reqinfo.uri appSigUri) then none
  else
    match gh.should_provide_app_sig reqinfo.headers with
    | .error _ => none
    | .ok gh_response =>
      some (Decision.action
        ⟨ActionType.Block, true, some gh_response.headers, gh_response.status_code,
          "\x7b\x7d", some ["check_app_sig"]⟩
        [])

/-- The bio-report magic URI prefix as checked inside `handle_bio_reports`
(39 characters). -/
def bioReportUri : String := "/8d47-ffc3-0f63-4b3c-c5c9-5699-6d5b-3a1"

/-- `handle_bio_reports` from `grasshopper.rs`. -/
def handle_bio_reports (gh : Grasshopper) (reqinfo : RequestInfo)
    (precision_level : PrecisionLevel) : Option Decision :=
  if !(starts_with reqinfo.uri bioReportUri) then none
  else
    match gh.handle_bio_report (ghQueryOf reqinfo) precision_level with
    | .error _ => none
    | .ok gh_response =>
      some (Decision.action
        ⟨ActionType.Block, true, some gh_response.headers, gh_response.status_code,
          gh_response.str_response, some ["handle_bio_reports"]⟩
        [])

/-! ## Pipeline state — `analyze.rs` -/

/-- Modelled from the spec: the type-state stats accumulator (`interface`
module, not under `src/`), recorded as the log of stage transitions. -/
abbrev Stats := List String

/-- `StatsCollect::mapped_stage_build`. -/
def Stats.mapped_stage_build (s : Stats) : Stats := s ++ ["mapped_stage_build"]

/-- `StatsCollect::limit_stage_build`. -/
def Stats.limit_stage_build (s : Stats) : Stats := s ++ ["limit_stage_build"]

/-- `StatsCollect::acl` records how many ACL decisions were produced. -/
def Stats.acl (s : Stats) (n : Nat) : Stats := s ++ ["acl:" ++ toString n]

/-- `StatsCollect::acl_stage_build`. -/
def Stats.acl_stage_build (s : Stats) : Stats := s ++ ["acl_stage_build"]

/-- `StatsCollect::no_content_filter`. -/
def Stats.no_content_filter (s : Stats) : Stats := s ++ ["no_content_filter"]

/-- `StatsCollect::cf_stage_build`. -/
def Stats.cf_stage_build (s : Stats) : Stats := s ++ ["cf_stage_build"]

/-- Opaque flow map from the policy (`config` module, not under `src/`). -/
abbrev FlowMap := Nat

/-- Opaque flow counter query built in phase 1 (`flow` module, not under
`src/`). -/
abbrev FlowCheck := Nat

/-- Opaque limit counter query built in phase 1 (`limit` module, not under
`src/`). -/
abbrev LimitCheck := Nat

/-- Opaque resolved flow check (`flow` module, not under `src/`). -/
abbrev FlowResult := Nat

/-- Opaque resolved limit check (`limit` module, not under `src/`). -/
abbrev LimitResult := Nat

/-- Opaque compiled content-filter rules (`config` module, not under
`src/`). -/
abbrev ContentFilterRules := Nat

/-- `SimpleDecision` (the global-filter / limit outcome): pass, or a
configured action with its reasons. -/
inductive SimpleDecision where
  | Pass
  | Action (action : SimpleAction) (reasons : List BlockReason)
deriving Repr, DecidableEq

/-- Modelled from the spec: a content-filter block outcome
`CfBlock{blocking, reasons}`. -/
structure CfBlock where
  blocking : Bool
  reasons : List BlockReason
deriving Repr, DecidableEq

/-- Modelled from the spec: the ACL evaluation outcome
`AclDecision{stage, tags, challenge}`. -/
structure AclDecision where
  stage : AclStage
  tags : List String
  challenge : Bool
deriving Repr, DecidableEq

/-- `AnalyzeResult` from `analyze.rs`. -/
structure AnalyzeResult where
  decision : Decision
  tags : Tags
  rinfo : RequestInfo
  stats : Stats
deriving Repr, DecidableEq

/-- `APhase0` from `analyze.rs`. -/
structure APhase0 where
  flows : FlowMap
  globalfilter_dec : SimpleDecision
  precision_level : PrecisionLevel
  itags : Tags
  reqinfo : RequestInfo
  stats : Stats
deriving Repr, DecidableEq

/-- `AnalysisInfo` from `analyze.rs`. -/
structure AnalysisInfo where
  precision_level : PrecisionLevel
  p0_decision : Decision
  reqinfo : RequestInfo
  stats : Stats
  tags : Tags
deriving Repr, DecidableEq

/-- `AnalysisPhase` from `analyze.rs`. -/
structure AnalysisPhase (FLOW LIMIT : Type) where
  flows : List FLOW
  limits : List LIMIT
  info : AnalysisInfo

/-- `APhase1` from `analyze.rs`. -/
abbrev APhase1 := AnalysisPhase FlowCheck LimitCheck

/-- `APhase2` from `analyze.rs`. -/
abbrev APhase2 := AnalysisPhase FlowResult LimitResult

/-- `InitResult` from `analyze.rs`. -/
inductive InitResult where
  | Res (result : AnalyzeResult)
  | Phase1 (p1 : APhase1)

/-- `CfRulesArg` from `analyze.rs`. -/
inductive CfRulesArg where
  | Global
  | Get (r : Option ContentFilterRules)

/-- The external collaborators called by `analyze.rs` whose code is not
under `src/`, modelled from the spec as explicit parameters: the flow/limit
query builders and processors, the ACL matcher (composed with
`AclResult::decision(is_human)`), the content-filter checker, and the
shared rule database read-lock outcome. `flow_process`, `limit_process`
and `content_filter_check` also return the updated tag set, since the
source passes `&mut tags` to them. -/
structure Ext where
  limit_info : RequestInfo → List LimitRule → Tags → List LimitCheck
  flow_info : FlowMap → RequestInfo → Tags → List FlowCheck
  flow_process : Stats → List FlowResult → Tags → Stats × Tags
  limit_process : Stats → List LimitResult → Tags → SimpleDecision × Stats × Tags
  check_acl : Tags → AclProfile → Bool → Option AclDecision
  content_filter_check : Stats → Tags → RequestInfo → ContentFilterProfile →
    Option ContentFilterRules → Except CfBlock Unit × Stats × Tags
  hsdb : Except String (String → Option ContentFilterRules)

/-! ## Phase 0 → 1: `analyze_init` -/

/-- The six policy-identity tags stamped at the start of `analyze_init`. -/
def stamp_tags (securitypolicy : SecurityPolicy) (tags : Tags) : Tags :=
  ((((((tags.insert_qualified "securitypolicy" securitypolicy.policy_name Location.Request).insert_qualified
      "securitypolicy-entry" securitypolicy.entry_name Location.Request).insert_qualified
      "aclid" securitypolicy.acl_profile.id Location.Request).insert_qualified
      "aclname" securitypolicy.acl_profile.name Location.Request).insert_qualified
      "contentfilterid" securitypolicy.content_filter_profile.id Location.Request).insert_qualified
      "contentfiltername" securitypolicy.content_filter_profile.name Location.Request)

/-- Short-circuit result constructor used by every early return of
`analyze_init`. -/
def initRes (decision : Decision) (tags : Tags) (reqinfo : RequestInfo)
    (stats : Stats) : InitResult :=
  InitResult.Res ⟨decision, tags, masking reqinfo, stats.mapped_stage_build⟩

/-- Final block of `analyze_init`: resolve the global-filter pre-decision
(short-circuit when final) and build the flow/limit query specs. -/
def init_globalfilter_stage (ext : Ext) (mgh : Option Grasshopper)
    (flows : FlowMap) (precision_level : PrecisionLevel)
    (globalfilter_dec : SimpleDecision) (reqinfo : RequestInfo)
    (stats : Stats) (tags : Tags) : InitResult :=
  let phase1 := fun (decision : Decision) (tags : Tags) =>
    let limit_checks := ext.limit_info reqinfo reqinfo.secpolicy.limits tags
    let flow_checks := ext.flow_info flows reqinfo tags
    InitResult.Phase1 ⟨flow_checks, limit_checks,
      ⟨precision_level, decision, reqinfo, stats, tags⟩⟩
  match globalfilter_dec with
  | SimpleDecision.Action action reason =>
    let td := action.to_decision precision_level mgh reqinfo tags reason
    if td.1.is_final then initRes td.1 td.2 reqinfo stats
    else phase1 td.1 td.2
  | SimpleDecision.Pass => phase1 (Decision.pass []) tags

/-- Bio-report dispatch block of `analyze_init`.  NOTE: the source gates
this on the 40-character prefix `/8d47-ffc3-0f63-4b3c-c5c9-5699-6d5b-3a1f`
(with a trailing `f`), not on the 39-character prefix checked inside
`handle_bio_reports`. -/
def init_bio_stage (ext : Ext) (mgh : Option Grasshopper) (flows : FlowMap)
    (precision_level : PrecisionLevel) (globalfilter_dec : SimpleDecision)
    (reqinfo : RequestInfo) (stats : Stats) (tags : Tags) : InitResult :=
  if starts_with reqinfo.uri "/8d47-ffc3-0f63-4b3c-c5c9-5699-6d5b-3a1f" then
    match mgh.bind (fun gh => handle_bio_reports gh reqinfo precision_level) with
    | some decision => initRes decision tags reqinfo stats
    | none =>
      init_globalfilter_stage ext mgh flows precision_level globalfilter_dec reqinfo stats tags
  else
    init_globalfilter_stage ext mgh flows precision_level globalfilter_dec reqinfo stats tags

/-- App-signature dispatch block of `analyze_init`. -/
def init_appsig_stage (ext : Ext) (mgh : Option Grasshopper) (flows : FlowMap)
    (precision_level : PrecisionLevel) (globalfilter_dec : SimpleDecision)
    (reqinfo : RequestInfo) (stats : Stats) (tags : Tags) : InitResult :=
  if starts_with reqinfo.uri appSigUri then
    match mgh.bind (fun gh => check_app_sig gh reqinfo) with
    | some decision => initRes decision tags reqinfo stats
    | none =>
      init_bio_stage ext mgh flows precision_level globalfilter_dec reqinfo stats tags
  else
    init_bio_stage ext mgh flows precision_level globalfilter_dec reqinfo stats tags

/-- Phase-02 dispatch block of `analyze_init`. -/
def init_phase02_stage (ext : Ext) (mgh : Option Grasshopper) (flows : FlowMap)
    (precision_level : PrecisionLevel) (globalfilter_dec : SimpleDecision)
    (reqinfo : RequestInfo) (stats : Stats) (tags : Tags) : InitResult :=
  if starts_with reqinfo.uri phase02Uri then
    match mgh.bind (fun gh => challenge_phase02 gh reqinfo) with
    | some decision => initRes decision tags reqinfo stats
    | none =>
      init_appsig_stage ext mgh flows precision_level globalfilter_dec reqinfo stats tags
  else
    init_appsig_stage ext mgh flows precision_level globalfilter_dec reqinfo stats tags

/-- Malformed-body block of `analyze_init`: when the content-filter profile
accepts some content types and body decoding failed, apply the profile's
action with a `body_malformed` reason, add the profile's extra tags
at `Location::Body`, and short-circuit. -/
def init_body_stage (ext : Ext) (mgh : Option Grasshopper) (flows : FlowMap)
    (precision_level : PrecisionLevel) (globalfilter_dec : SimpleDecision)
    (reqinfo : RequestInfo) (stats : Stats) (tags : Tags) : InitResult :=
  let securitypolicy := reqinfo.secpolicy
  if !securitypolicy.content_filter_profile.content_type.isEmpty then
    match reqinfo.body_decoding with
    | BodyDecodingResult.DecodingFailed rr =>
      let reason := BlockReason.body_malformed rr
      let td := securitypolicy.content_filter_profile.action.to_decision
        precision_level mgh reqinfo tags [reason]
      let tags := securitypolicy.content_filter_profile.tags.foldl
        (fun t s => t.insert s Location.Body) td.2
      initRes td.1 tags reqinfo stats
    | BodyDecodingResult.Decoded =>
      init_phase02_stage ext mgh flows precision_level globalfilter_dec reqinfo stats tags
  else
    init_phase02_stage ext mgh flows precision_level globalfilter_dec reqinfo stats tags

/-- `analyze_init` from `analyze.rs`. -/
def analyze_init (ext : Ext) (mgh : Option Grasshopper) (p0 : APhase0) : InitResult :=
  let stats := p0.stats
  let reqinfo := p0.reqinfo
  let precision_level := p0.precision_level
  let globalfilter_dec := p0.globalfilter_dec
  let tags := stamp_tags reqinfo.secpolicy p0.itags
  if starts_with reqinfo.uri "/c3650cdf" then
    match mgh with
    | some gh =>
      initRes (challenge_phase01 gh reqinfo [] GHMode.Passive) tags reqinfo stats
    | none =>
      init_body_stage ext mgh p0.flows precision_level globalfilter_dec reqinfo stats tags
  else
    init_body_stage ext mgh p0.flows precision_level globalfilter_dec reqinfo stats tags

/-! ## Phase 1 → 2: `analyze_query` -/

/-- The redis environment of `analyze_query`, modelled from the spec: the
outcome of `redis_async_conn`, the outcome of the pipelined query, and the
flow/limit resolvers composed with `eat_errors` (`redis`, `flow` and
`limit` modules, not under `src/`). -/
structure RedisEnv where
  conn : Except String Unit
  execRes : Except String (List (Option Int))
  resolveFlows : List (Option Int) → List FlowCheck → List FlowResult
  resolveLimits : List (Option Int) → List LimitCheck → List LimitResult

/-- `analyze_query` from `analyze.rs`. -/
def analyze_query (env : RedisEnv) (p1 : APhase1) : APhase2 :=
  let empty := fun (info : AnalysisInfo) =>
    (⟨[], [], info⟩ : APhase2)
  let info := p1.info
  if p1.flows.isEmpty && p1.limits.isEmpty then empty info
  else
    match env.conn with
    | .error _ => empty info
    | .ok () =>
      match env.execRes with
      | .error _ => empty info
      | .ok lst =>
        ⟨env.resolveFlows lst p1.flows, env.resolveLimits lst p1.limits, info⟩

/-! ## Phase 2 → result: `analyze_finish` -/

/-- The `acl_block` closure of `analyze_finish`: apply the ACL profile's
configured action with no reasons. -/
def acl_block (secpol : SecurityPolicy) (precision_level : PrecisionLevel)
    (mgh : Option Grasshopper) (reqinfo : RequestInfo) (tags : Tags) :
    Decision × Tags :=
  secpol.acl_profile.action.to_decision precision_level mgh reqinfo tags []

/-- The `Err(cfblock)` branch of `analyze_finish`: union the content-filter
profile's extra tags at the reasons' locations, demote every reason when
`content_filter_active` is false, and when the block is blocking apply the
profile's action with `block_mode` ANDed with `content_filter_active`. -/
def cf_decision_of (secpol : SecurityPolicy) (precision_level : PrecisionLevel)
    (mgh : Option Grasshopper) (reqinfo : RequestInfo) (cfblock : CfBlock)
    (tags : Tags) : Decision × Tags :=
  let tags :=
    if !secpol.content_filter_profile.tags.isEmpty then
      let locs := cfblock.reasons.flatMap (fun r => r.location)
      secpol.content_filter_profile.tags.foldl (fun t s => t.insert_locs s locs) tags
    else tags
  let br := cfblock.reasons.map (fun reason =>
    if !secpol.content_filter_active then
      { reason with decision := reason.decision.inactive }
    else reason)
  if cfblock.blocking then
    let td := secpol.content_filter_profile.action.to_decision
      precision_level mgh reqinfo tags br
    let demoted := td.1.maction.map
      (fun a => { a with block_mode := a.block_mode && secpol.content_filter_active })
    ({ td.1 with maction := demoted }, td.2)
  else (Decision.pass br, tags)

/-- Content-filter block of `analyze_finish`: consult the rule database (or
the caller-supplied rules), run the content-filter check, resolve its
outcome and merge into the cumulated decision. -/
def content_filter_stage (ext : Ext) (mgh : Option Grasshopper)
    (cfrules : CfRulesArg) (precision_level : PrecisionLevel)
    (reqinfo : RequestInfo) (cumulated_decision : Decision) (tags : Tags)
    (stats : Stats) : AnalyzeResult :=
  let secpol := reqinfo.secpolicy
  let checked :=
    match cfrules with
    | CfRulesArg.Global =>
      match ext.hsdb with
      | .ok rd =>
        ext.content_filter_check stats tags reqinfo secpol.content_filter_profile
          (rd secpol.content_filter_profile.id)
      | .error _ => (Except.ok (), stats.no_content_filter, tags)
    | CfRulesArg.Get r =>
      ext.content_filter_check stats tags reqinfo secpol.content_filter_profile r
  let stats := checked.2.1
  let tags := checked.2.2
  match checked.1 with
  | Except.ok () =>
    let cumulated_decision := merge_decisions cumulated_decision (Decision.pass [])
    ⟨cumulated_decision, tags, masking reqinfo, stats.cf_stage_build⟩
  | Except.error cfblock =>
    let dt := cf_decision_of secpol precision_level mgh reqinfo cfblock tags
    ⟨merge_decisions cumulated_decision dt.1, dt.2, masking reqinfo, stats.cf_stage_build⟩

/-- ACL block of `analyze_finish`: evaluate the ACL, demote its reason when
`acl_active` is false, union the profile's extra tags, then return at the
bypass, challenge or block branch, or fall through to the content filter. -/
def acl_stage (ext : Ext) (mgh : Option Grasshopper) (cfrules : CfRulesArg)
    (precision_level : PrecisionLevel) (reqinfo : RequestInfo)
    (cumulated_decision : Decision) (tags : Tags) (stats : Stats) : AnalyzeResult :=
  let secpol := reqinfo.secpolicy
  let acl_decision := ext.check_acl tags secpol.acl_profile precision_level.is_human
  let stats := stats.acl (if acl_decision.isSome then 1 else 0)
  match acl_decision with
  | none =>
    content_filter_stage ext mgh cfrules precision_level reqinfo cumulated_decision tags stats
  | some decision =>
    let bypass := decision.stage == AclStage.Bypass
    let br0 := BlockReason.acl decision.tags decision.stage
    let br := if !secpol.acl_active then { br0 with decision := br0.decision.inactive } else br0
    let blocking := br.decision == BDecision.Blocking
    let cumulated_decision := merge_decisions cumulated_decision (Decision.pass [br])
    let tags :=
      if !secpol.acl_profile.tags.isEmpty then
        let locs := cumulated_decision.reasons.flatMap (fun r => r.location)
        secpol.acl_profile.tags.foldl (fun t s => t.insert_locs s locs) tags
      else tags
    if secpol.acl_active && bypass then
      ⟨cumulated_decision, tags, masking reqinfo, stats.acl_stage_build⟩
    else if decision.challenge then
      let dt :=
        match mgh with
        | some gh => (challenge_phase01 gh reqinfo [] GHMode.Active, tags)
        | none => acl_block secpol precision_level mgh reqinfo tags
      ⟨merge_decisions cumulated_decision dt.1, dt.2, masking reqinfo, stats.acl_stage_build⟩
    else if blocking then
      let dt := acl_block secpol precision_level mgh reqinfo tags
      ⟨merge_decisions cumulated_decision dt.1, dt.2, masking reqinfo, stats.acl_stage_build⟩
    else
      content_filter_stage ext mgh cfrules precision_level reqinfo cumulated_decision tags stats

/-- `analyze_finish` from `analyze.rs`. -/
def analyze_finish (ext : Ext) (mgh : Option Grasshopper) (cfrules : CfRulesArg)
    (p2 : APhase2) : AnalyzeResult :=
  let info := p2.info
  let precision_level := info.precision_level
  let reqinfo := info.reqinfo
  let fp := ext.flow_process info.stats p2.flows info.tags
  let lp := ext.limit_process fp.1 p2.limits fp.2
  let stats := lp.2.1
  let tags := lp.2.2
  match lp.1 with
  | SimpleDecision.Action action curbrs =>
    let td := action.to_decision precision_level mgh reqinfo tags curbrs
    let cumulated_decision := merge_decisions info.p0_decision td.1
    if cumulated_decision.is_final then
      ⟨cumulated_decision, td.2, masking reqinfo, stats.limit_stage_build⟩
    else
      acl_stage ext mgh cfrules precision_level reqinfo cumulated_decision td.2 stats
  | SimpleDecision.Pass =>
    acl_stage ext mgh cfrules precision_level reqinfo info.p0_decision tags stats

/-- `analyze` from `analyze.rs`: the three-phase composition. -/
def analyze (ext : Ext) (env : RedisEnv) (mgh : Option Grasshopper)
    (p0 : APhase0) (cfrules : CfRulesArg) : AnalyzeResult :=
  match analyze_init ext mgh p0 with
  | InitResult.Res result => result
  | InitResult.Phase1 p1 => analyze_finish ext mgh cfrules (analyze_query env p1)

/-- The tag set carried by either outcome of `analyze_init`. -/
def InitResult.tagsOf : InitResult → Tags
  | .Res r => r.tags
  | .Phase1 p1 => p1.info.tags

/-! ## Tag-set lemmas -/

theorem Tags.subsetOf_refl (t : Tags) : t.subsetOf t := fun _ h => h

theorem Tags.subsetOf_trans {a b c : Tags} (h1 : a.subsetOf b) (h2 : b.subsetOf c) :
    a.subsetOf c := fun n hn => h2 n (h1 n hn)

theorem Tags.any_map_fst (l : List (String × List Location))
    (f : String × List Location → String × List Location)
    (hf : ∀ e, (f e).1 = e.1) (m : String) :
    (l.map f).any (fun e => e.1 == m) = l.any (fun e => e.1 == m) := by
  induction l with
  | nil => rfl
  | cons a as ih => simp only [List.map_cons, List.any_cons, hf, ih]

theorem Tags.subset_insert_locs (t : Tags) (n : String) (locs : List Location) :
    t.subsetOf (t.insert_locs n locs) := by
  intro m hm
  unfold Tags.insert_locs
  by_cases h : t.hasTag n
  · rw [if_pos h]
    unfold Tags.hasTag at hm ⊢
    show (t.entries.map _).any _ = true
    rw [Tags.any_map_fst]
    · exact hm
    · intro e
      split <;> rfl
  · rw [if_neg h]
    unfold Tags.hasTag at hm ⊢
    show (t.entries ++ [(n, locs)]).any (fun e => e.1 == m) = true
    simp only [List.any_append, hm, Bool.true_or]

theorem Tags.subset_insert (t : Tags) (n : String) (loc : Location) :
    t.subsetOf (t.insert n loc) :=
  Tags.subset_insert_locs t n [loc]

theorem Tags.subset_insert_qualified (t : Tags) (k v : String) (loc : Location) :
    t.subsetOf (t.insert_qualified k v loc) :=
  Tags.subset_insert t (k ++ ":" ++ v) loc

theorem Tags.subset_foldl {α : Type} (step : Tags → α → Tags)
    (hstep : ∀ (t : Tags) (x : α), t.subsetOf (step t x)) :
    ∀ (xs : List α) (t : Tags), t.subsetOf (xs.foldl step t) := by
  intro xs
  induction xs with
  | nil => intro t; exact Tags.subsetOf_refl t
  | cons x xs ih =>
    intro t
    exact Tags.subsetOf_trans (hstep t x) (ih (step t x))

theorem subset_to_decision (a : SimpleAction) (pl : PrecisionLevel)
    (mgh : Option Grasshopper) (ri : RequestInfo) (tags : Tags)
    (reasons : List BlockReason) :
    tags.subsetOf (a.to_decision pl mgh ri tags reasons).2 :=
  Tags.subset_foldl _ (fun t s => Tags.subset_insert t s Location.Request) a.extra_tags tags

theorem subset_stamp_tags (secpol : SecurityPolicy) (tags : Tags) :
    tags.subsetOf (stamp_tags secpol tags) := by
  unfold stamp_tags
  refine Tags.subsetOf_trans ?_ (Tags.subset_insert_qualified _ _ _ _)
  refine Tags.subsetOf_trans ?_ (Tags.subset_insert_qualified _ _ _ _)
  refine Tags.subsetOf_trans ?_ (Tags.subset_insert_qualified _ _ _ _)
  refine Tags.subsetOf_trans ?_ (Tags.subset_insert_qualified _ _ _ _)
  refine Tags.subsetOf_trans ?_ (Tags.subset_insert_qualified _ _ _ _)
  exact Tags.subset_insert_qualified _ _ _ _

/-! ## Dispatch-stage lemmas for `analyze_init` -/

theorem analyze_init_c3650_short (ext : Ext) (gh : Grasshopper) (p0 : APhase0)
    (h : starts_with p0.reqinfo.uri "/c3650cdf" = true) :
    analyze_init ext (some gh) p0 =
      initRes (challenge_phase01 gh p0.reqinfo [] GHMode.Passive)
        (stamp_tags p0.reqinfo.secpolicy p0.itags) p0.reqinfo p0.stats := by
  unfold analyze_init
  simp only [h, if_true]

theorem analyze_init_c3650_fall (ext : Ext) (mgh : Option Grasshopper) (p0 : APhase0)
    (h : starts_with p0.reqinfo.uri "/c3650cdf" = false ∨ mgh = none) :
    analyze_init ext mgh p0 =
      init_body_stage ext mgh p0.flows p0.precision_level p0.globalfilter_dec
        p0.reqinfo p0.stats (stamp_tags p0.reqinfo.secpolicy p0.itags) := by
  unfold analyze_init
  rcases h with h | h
  · simp only [h, Bool.false_eq_true, if_false]
  · subst h
    by_cases hc : starts_with p0.reqinfo.uri "/c3650cdf" = true
    · simp only [hc, if_true]
    · simp only [Bool.not_eq_true] at hc
      simp only [hc, Bool.false_eq_true, if_false]

theorem init_body_short (ext : Ext) (mgh : Option Grasshopper) (flows : FlowMap)
    (pl : PrecisionLevel) (gfd : SimpleDecision) (reqinfo : RequestInfo)
    (stats : Stats) (tags : Tags) (rr : String)
    (hty : reqinfo.secpolicy.content_filter_profile.content_type.isEmpty = false)
    (hbody : reqinfo.body_decoding = BodyDecodingResult.DecodingFailed rr) :
    init_body_stage ext mgh flows pl gfd reqinfo stats tags =
      (let td := reqinfo.secpolicy.content_filter_profile.action.to_decision
        pl mgh reqinfo tags [BlockReason.body_malformed rr]
      initRes td.1
        (reqinfo.secpolicy.content_filter_profile.tags.foldl
          (fun t s => t.insert s Location.Body) td.2) reqinfo stats) := by
  unfold init_body_stage
  simp only [hty, hbody, Bool.not_false, if_true]

theorem init_body_fall (ext : Ext) (mgh : Option Grasshopper) (flows : FlowMap)
    (pl : PrecisionLevel) (gfd : SimpleDecision) (reqinfo : RequestInfo)
    (stats : Stats) (tags : Tags)
    (h : reqinfo.secpolicy.content_filter_profile.content_type.isEmpty = true ∨
         reqinfo.body_decoding = BodyDecodingResult.Decoded) :
    init_body_stage ext mgh flows pl gfd reqinfo stats tags =
      init_phase02_stage ext mgh flows pl gfd reqinfo stats tags := by
  unfold init_body_stage
  rcases h with h | h
  · simp only [h, Bool.not_true, Bool.false_eq_true, if_false]
  · rw [h]
    by_cases hty : reqinfo.secpolicy.content_filter_profile.content_type.isEmpty = true
    · simp only [hty, Bool.not_true, Bool.false_eq_true, if_false]
    · simp only [Bool.not_eq_true] at hty
      simp only [hty, Bool.not_false, if_true]

theorem init_phase02_short (ext : Ext) (mgh : Option Grasshopper) (flows : FlowMap)
    (pl : PrecisionLevel) (gfd : SimpleDecision) (reqinfo : RequestInfo)
    (stats : Stats) (tags : Tags) (d : Decision)
    (h : mgh.bind (fun gh => challenge_phase02 gh reqinfo) = some d) :
    init_phase02_stage ext mgh flows pl gfd reqinfo stats tags =
      initRes d tags reqinfo stats := by
  have hpre : starts_with reqinfo.uri phase02Uri = true := by
    rcases mgh with _ | gh
    · simp at h
    · simp only [Option.some_bind] at h
      unfold challenge_phase02 at h
      by_cases hp : starts_with reqinfo.uri phase02Uri = true
      · exact hp
      · simp only [Bool.not_eq_true] at hp
        rw [hp] at h
        simp at h
  unfold init_phase02_stage
  simp only [hpre, if_true, h]

theorem init_phase02_fall (ext : Ext) (mgh : Option Grasshopper) (flows : FlowMap)
    (pl : PrecisionLevel) (gfd : SimpleDecision) (reqinfo : RequestInfo)
    (stats : Stats) (tags : Tags)
    (h : mgh.bind (fun gh => challenge_phase02 gh reqinfo) = none) :
    init_phase02_stage ext mgh flows pl gfd reqinfo stats tags =
      init_appsig_stage ext mgh flows pl gfd reqinfo stats tags := by
  unfold init_phase02_stage
  by_cases hp : starts_with reqinfo.uri phase02Uri = true
  · simp only [hp, if_true, h]
  · simp only [Bool.not_eq_true] at hp
    simp only [hp, Bool.false_eq_true, if_false]

theorem init_appsig_short (ext : Ext) (mgh : Option Grasshopper) (flows : FlowMap)
    (pl : PrecisionLevel) (gfd : SimpleDecision) (reqinfo : RequestInfo)
    (stats : Stats) (tags : Tags) (d : Decision)
    (h : mgh.bind (fun gh => check_app_sig gh reqinfo) = some d) :
    init_appsig_stage ext mgh flows pl gfd reqinfo stats tags =
      initRes d tags reqinfo stats := by
  have hpre : starts_with reqinfo.uri appSigUri = true := by
    rcases mgh with _ | gh
    · simp at h
    · simp only [Option.some_bind] at h
      unfold check_app_sig at h
      by_cases hp : starts_with reqinfo.uri appSigUri = true
      · exact hp
      · simp only [Bool.not_eq_true] at hp
        rw [hp] at h
        simp at h
  unfold init_appsig_stage
  simp only [hpre, if_true, h]

theorem init_appsig_fall (ext : Ext) (mgh : Option Grasshopper) (flows : FlowMap)
    (pl : PrecisionLevel) (gfd : SimpleDecision) (reqinfo : RequestInfo)
    (stats : Stats) (tags : Tags)
    (h : mgh.bind (fun gh => check_app_sig gh reqinfo) = none) :
    init_appsig_stage ext mgh flows pl gfd reqinfo stats tags =
      init_bio_stage ext mgh flows pl gfd reqinfo stats tags := by
  unfold init_appsig_stage
  by_cases hp : starts_with reqinfo.uri appSigUri = true
  · simp only [hp, if_true, h]
  · simp only [Bool.not_eq_true] at hp
    simp only [hp, Bool.false_eq_true, if_false]

theorem init_bio_short (ext : Ext) (mgh : Option Grasshopper) (flows : FlowMap)
    (pl : PrecisionLevel) (gfd : SimpleDecision) (reqinfo : RequestInfo)
    (stats : Stats) (tags : Tags) (d : Decision)
    (hgate : starts_with reqinfo.uri "/8d47-ffc3-0f63-4b3c-c5c9-5699-6d5b-3a1f" = true)
    (h : mgh.bind (fun gh => handle_bio_reports gh reqinfo pl) = some d) :
    init_bio_stage ext mgh flows pl gfd reqinfo stats tags =
      initRes d tags reqinfo stats := by
  unfold init_bio_stage
  simp only [hgate, if_true, h]

theorem init_bio_fall (ext : Ext) (mgh : Option Grasshopper) (flows : FlowMap)
    (pl : PrecisionLevel) (gfd : SimpleDecision) (reqinfo : RequestInfo)
    (stats : Stats) (tags : Tags)
    (h : starts_with reqinfo.uri "/8d47-ffc3-0f63-4b3c-c5c9-5699-6d5b-3a1f" = false ∨
         mgh.bind (fun gh => handle_bio_reports gh reqinfo pl) = none) :
    init_bio_stage ext mgh flows pl gfd reqinfo stats tags =
      init_globalfilter_stage ext mgh flows pl gfd reqinfo stats tags := by
  unfold init_bio_stage
  rcases h with h | h
  · simp only [h, Bool.false_eq_true, if_false]
  · by_cases hp : starts_with reqinfo.uri "/8d47-ffc3-0f63-4b3c-c5c9-5699-6d5b-3a1f" = true
    · simp only [hp, if_true, h]
    · simp only [Bool.not_eq_true] at hp
      simp only [hp, Bool.false_eq_true, if_false]

/-! ## Concrete sample inputs for witnesses -/

/-- A sample configured action. -/
def sampleAction : SimpleAction :=
  ⟨ActionType.Block, true, 503, "blocked", ["policy-tag"]⟩

/-- A sample ACL profile. -/
def sampleAclProfile : AclProfile := ⟨"acl1", "aclname1", [], sampleAction⟩

/-- A sample content-filter profile (empty accepted-content-type list). -/
def sampleCfProfile : ContentFilterProfile := ⟨"cf1", "cfname1", [], [], sampleAction⟩

/-- A sample security policy. -/
def sampleSecpol : SecurityPolicy :=
  ⟨"pol", "entry", sampleAclProfile, sampleCfProfile, [], true, true⟩

/-- A sample request with the given uri. -/
def sampleReq (uri : String) : RequestInfo :=
  ⟨[("host", "example.com")], [("sid", "42")], "203.0.113.8", none, uri,
   BodyDecodingResult.Decoded, sampleSecpol⟩

/-- A sample bot-detector response (status code deliberately not 247). -/
def sampleGHResp : GHResponse := ⟨PrecisionLevel.Active, "chal-body", [("X", "Y")], 999⟩

/-- A detector whose every call succeeds with the given response/token. -/
def okGrasshopper (r : GHResponse) (token : String) : Grasshopper where
  is_human _ := .ok r.precision_level
  init_challenge _ _ := .ok r
  verify_challenge _ := .ok token
  should_provide_app_sig _ := .ok r
  handle_bio_report _ _ := .ok r

/-- Trivial external collaborators: no flow/limit checks, no ACL decision,
content filter passes, all tag sets unchanged. -/
def trivExt : Ext where
  limit_info _ _ _ := []
  flow_info _ _ _ := []
  flow_process s _ t := (s, t)
  limit_process s _ t := (SimpleDecision.Pass, s, t)
  check_acl _ _ _ := none
  content_filter_check s t _ _ _ := (Except.ok (), s, t)
  hsdb := Except.error "poisoned"

/-- A trivial redis environment whose connection fails. -/
def downRedis : RedisEnv where
  conn := Except.error "connection refused"
  execRes := Except.error "connection refused"
  resolveFlows _ _ := []
  resolveLimits _ _ := []

/-! ## C6 -/

/-- C6: for every request and every bot detector whose `init_challenge`
call fails, `challenge_phase01` returns the fail-safe decision: a `Block`
action with `block_mode = true`, HTTP status 500, body `internal_error`,
and a single blocking `phase01_unknown` reason carrying the detector's
error message. -/
theorem C6_phase01_fail_safe (gh : Grasshopper) (rinfo : RequestInfo)
    (reasons : List BlockReason) (mode : GHMode) (msg : String)
    (h : gh.init_challenge (ghQueryOf rinfo) mode = .error msg) :
    challenge_phase01 gh rinfo reasons mode =
      Decision.action ⟨ActionType.Block, true, none, 500, "internal_error", none⟩
        [⟨"phase01", msg, BDecision.Blocking, [Location.Request]⟩] := by
  unfold challenge_phase01
  rw [h]
  rfl

/-- Witness for C6 at the `DummyGrasshopper`, which fails every call. -/
theorem C6_phase01_fail_safe_witness :
    challenge_phase01 DummyGrasshopper (sampleReq "/") [] GHMode.Passive =
      Decision.action ⟨ActionType.Block, true, none, 500, "internal_error", none⟩
        [⟨"phase01", "not implemented", BDecision.Blocking, [Location.Request]⟩] :=
  C6_phase01_fail_safe DummyGrasshopper (sampleReq "/") [] GHMode.Passive
    "not implemented" rfl

/-! ## C7 -/

/-- C7: for every request and every bot detector whose `init_challenge`
call succeeds, `challenge_phase01` returns a `Block` action with
`block_mode = true`, HTTP status exactly 247 (whatever status code the
detector returned), the detector's body and headers, and
`extra_tags = ["challenge_phase01"]`. -/
theorem C7_phase01_challenge (gh : Grasshopper) (rinfo : RequestInfo)
    (reasons : List BlockReason) (mode : GHMode) (r : GHResponse)
    (h : gh.init_challenge (ghQueryOf rinfo) mode = .ok r) :
    challenge_phase01 gh rinfo reasons mode =
      Decision.action ⟨ActionType.Block, true, some r.headers, 247,
        r.str_response, some ["challenge_phase01"]⟩ reasons := by
  unfold challenge_phase01
  rw [h]

/-- Witness for C7 at a detector returning status code 999: the action's
status is still 247. -/
theorem C7_phase01_challenge_witness :
    challenge_phase01 (okGrasshopper sampleGHResp "t") (sampleReq "/") [] GHMode.Active =
      Decision.action ⟨ActionType.Block, true, some [("X", "Y")], 247,
        "chal-body", some ["challenge_phase01"]⟩ [] := by
  rw [C7_phase01_challenge (okGrasshopper sampleGHResp "t") (sampleReq "/") []
    GHMode.Active sampleGHResp rfl]
  rfl

/-! ## C8 -/

/-- C8: for every request whose path starts with the phase-02 prefix and
whose `verify_challenge` call succeeds with token `t`, `challenge_phase02`
returns a decision whose action has HTTP status 248, extra tag
`challenge_phase02`, and a `Set-Cookie` header `rbzid=` followed by `t`
with every `=` replaced by `-`, followed by `; Path=/; HttpOnly`; for
paths not starting with the prefix it returns `none`. -/
theorem C8_phase02_cookie (gh : Grasshopper) (reqinfo : RequestInfo) (t : String)
    (hpre : starts_with reqinfo.uri phase02Uri = true)
    (hok : gh.verify_challenge reqinfo.headers = .ok t) :
    (challenge_phase02 gh reqinfo =
      some (Decision.action ⟨ActionType.Block, true,
        some [("Set-Cookie", "rbzid=" ++ replaceEqDash t ++ "; Path=/; HttpOnly")],
        248, "\x7b\x7d", some ["challenge_phase02"]⟩ [])) ∧
    (∀ (gh' : Grasshopper) (ri' : RequestInfo),
      starts_with ri'.uri phase02Uri = false → challenge_phase02 gh' ri' = none) := by
  constructor
  · unfold challenge_phase02
    rw [hpre, hok]
    rfl
  · intro gh' ri' hpre'
    unfold challenge_phase02
    rw [hpre']
    rfl

/-- Witness for C8: token `ab=cd=` yields the cookie
`rbzid=ab-cd-; Path=/; HttpOnly`, and a non-matching path yields `none`. -/
theorem C8_phase02_cookie_witness :
    (challenge_phase02 (okGrasshopper sampleGHResp "ab=cd=") (sampleReq phase02Uri) =
      some (Decision.action ⟨ActionType.Block, true,
        some [("Set-Cookie", "rbzid=ab-cd-; Path=/; HttpOnly")],
        248, "\x7b\x7d", some ["challenge_phase02"]⟩ [])) ∧
    challenge_phase02 (okGrasshopper sampleGHResp "ab=cd=") (sampleReq "/other") = none := by
  have h := C8_phase02_cookie (okGrasshopper sampleGHResp "ab=cd=")
    (sampleReq phase02Uri) "ab=cd=" (by decide) rfl
  exact ⟨h.1, h.2 _ _ (by decide)⟩

/-- Initial tag set used by concrete pipeline evaluations. -/
def sampleItags : Tags := ⟨[("itag", [Location.Request])]⟩

/-- A sample phase-0 input with the given uri. -/
def sampleP0 (uri : String) : APhase0 :=
  ⟨0, SimpleDecision.Pass, PrecisionLevel.Active, sampleItags, sampleReq uri, []⟩

/-! ## C9 -/

/-- C9: when the bot-detector call fails inside `challenge_phase02`,
`check_app_sig` or `handle_bio_reports`, each returns `none`, and
`analyze_init` does not short-circuit on the corresponding magic URI but
continues with the global-filter step (here stated for a request that does
not hit the passive-challenge prefix and whose body decoded). -/
theorem C9_detector_failure_continues (gh : Grasshopper) (ext : Ext) (p0 : APhase0)
    (e1 e2 e3 : String)
    (hv : gh.verify_challenge p0.reqinfo.headers = .error e1)
    (hs : gh.should_provide_app_sig p0.reqinfo.headers = .error e2)
    (hb : gh.handle_bio_report (ghQueryOf p0.reqinfo) p0.precision_level = .error e3)
    (hc3 : starts_with p0.reqinfo.uri "/c3650cdf" = false)
    (hbody : p0.reqinfo.body_decoding = BodyDecodingResult.Decoded) :
    challenge_phase02 gh p0.reqinfo = none ∧
    check_app_sig gh p0.reqinfo = none ∧
    handle_bio_reports gh p0.reqinfo p0.precision_level = none ∧
    analyze_init ext (some gh) p0 =
      init_globalfilter_stage ext (some gh) p0.flows p0.precision_level
        p0.globalfilter_dec p0.reqinfo p0.stats
        (stamp_tags p0.reqinfo.secpolicy p0.itags) := by
  have h02 : challenge_phase02 gh p0.reqinfo = none := by
    unfold challenge_phase02
    cases hp : starts_with p0.reqinfo.uri phase02Uri
    · rfl
    · rw [hv]
      rfl
  have happ : check_app_sig gh p0.reqinfo = none := by
    unfold check_app_sig
    cases hp : starts_with p0.reqinfo.uri appSigUri
    · rfl
    · rw [hs]
      rfl
  have hbio : handle_bio_reports gh p0.reqinfo p0.precision_level = none := by
    unfold handle_bio_reports
    cases hp : starts_with p0.reqinfo.uri bioReportUri
    · rfl
    · rw [hb]
      rfl
  refine ⟨h02, happ, hbio, ?_⟩
  rw [analyze_init_c3650_fall ext (some gh) p0 (Or.inl hc3)]
  rw [init_body_fall _ _ _ _ _ _ _ _ (Or.inr hbody)]
  rw [init_phase02_fall _ _ _ _ _ _ _ _ (by simp only [Option.some_bind, h02])]
  rw [init_appsig_fall _ _ _ _ _ _ _ _ (by simp only [Option.some_bind, happ])]
  rw [init_bio_fall _ _ _ _ _ _ _ _ (Or.inr (by simp only [Option.some_bind, hbio]))]

/-- Witness for C9 at the `DummyGrasshopper` (fails every call) on a plain
request path. -/
theorem C9_detector_failure_continues_witness :
    challenge_phase02 DummyGrasshopper (sampleReq "/index.html") = none ∧
    check_app_sig DummyGrasshopper (sampleReq "/index.html") = none ∧
    handle_bio_reports DummyGrasshopper (sampleReq "/index.html") PrecisionLevel.Active = none ∧
    analyze_init trivExt (some DummyGrasshopper) (sampleP0 "/index.html") =
      init_globalfilter_stage trivExt (some DummyGrasshopper) 0 PrecisionLevel.Active
        SimpleDecision.Pass (sampleReq "/index.html") []
        (stamp_tags sampleSecpol sampleItags) :=
  C9_detector_failure_continues DummyGrasshopper trivExt (sampleP0 "/index.html")
    "not implemented" "not implemented" "not implemented" rfl rfl rfl (by decide) rfl

/-! ## C5 -/

/-- C5: dispatch order of `analyze_init` after stamping the six
policy-identity tags: (1) the `/c3650cdf` prefix with a detector present
issues a passive challenge and short-circuits; (2) otherwise a failed body
decoding with a non-empty accepted-content-type list short-circuits with
the content-filter action, a `body_malformed` reason and the profile's
extra tags at `Location::Body`; (3) otherwise the phase-02 prefix, (4) the
app-signature prefix, and (5) the bio-report gate prefix each short-circuit
iff their handler returns a decision; (6) only when none fires is the
global-filter stage reached. -/
theorem C5_init_dispatch_order (ext : Ext) (mgh : Option Grasshopper) (p0 : APhase0) :
    (∀ gh : Grasshopper, mgh = some gh →
      starts_with p0.reqinfo.uri "/c3650cdf" = true →
      analyze_init ext mgh p0 =
        initRes (challenge_phase01 gh p0.reqinfo [] GHMode.Passive)
          (stamp_tags p0.reqinfo.secpolicy p0.itags) p0.reqinfo p0.stats) ∧
    (∀ rr : String,
      (starts_with p0.reqinfo.uri "/c3650cdf" = false ∨ mgh = none) →
      p0.reqinfo.secpolicy.content_filter_profile.content_type.isEmpty = false →
      p0.reqinfo.body_decoding = BodyDecodingResult.DecodingFailed rr →
      analyze_init ext mgh p0 =
        (let td := p0.reqinfo.secpolicy.content_filter_profile.action.to_decision
          p0.precision_level mgh p0.reqinfo (stamp_tags p0.reqinfo.secpolicy p0.itags)
          [BlockReason.body_malformed rr]
        initRes td.1
          (p0.reqinfo.secpolicy.content_filter_profile.tags.foldl
            (fun t s => t.insert s Location.Body) td.2) p0.reqinfo p0.stats)) ∧
    (∀ d : Decision,
      (starts_with p0.reqinfo.uri "/c3650cdf" = false ∨ mgh = none) →
      (p0.reqinfo.secpolicy.content_filter_profile.content_type.isEmpty = true ∨
        p0.reqinfo.body_decoding = BodyDecodingResult.Decoded) →
      mgh.bind (fun gh => challenge_phase02 gh p0.reqinfo) = some d →
      analyze_init ext mgh p0 =
        initRes d (stamp_tags p0.reqinfo.secpolicy p0.itags) p0.reqinfo p0.stats) ∧
    (∀ d : Decision,
      (starts_with p0.reqinfo.uri "/c3650cdf" = false ∨ mgh = none) →
      (p0.reqinfo.secpolicy.content_filter_profile.content_type.isEmpty = true ∨
        p0.reqinfo.body_decoding = BodyDecodingResult.Decoded) →
      mgh.bind (fun gh => challenge_phase02 gh p0.reqinfo) = none →
      mgh.bind (fun gh => check_app_sig gh p0.reqinfo) = some d →
      analyze_init ext mgh p0 =
        initRes d (stamp_tags p0.reqinfo.secpolicy p0.itags) p0.reqinfo p0.stats) ∧
    (∀ d : Decision,
      (starts_with p0.reqinfo.uri "/c3650cdf" = false ∨ mgh = none) →
      (p0.reqinfo.secpolicy.content_filter_profile.content_type.isEmpty = true ∨
        p0.reqinfo.body_decoding = BodyDecodingResult.Decoded) →
      mgh.bind (fun gh => challenge_phase02 gh p0.reqinfo) = none →
      mgh.bind (fun gh => check_app_sig gh p0.reqinfo) = none →
      starts_with p0.reqinfo.uri "/8d47-ffc3-0f63-4b3c-c5c9-5699-6d5b-3a1f" = true →
      mgh.bind (fun gh => handle_bio_reports gh p0.reqinfo p0.precision_level) = some d →
      analyze_init ext mgh p0 =
        initRes d (stamp_tags p0.reqinfo.secpolicy p0.itags) p0.reqinfo p0.stats) ∧
    ((starts_with p0.reqinfo.uri "/c3650cdf" = false ∨ mgh = none) →
      (p0.reqinfo.secpolicy.content_filter_profile.content_type.isEmpty = true ∨
        p0.reqinfo.body_decoding = BodyDecodingResult.Decoded) →
      mgh.bind (fun gh => challenge_phase02 gh p0.reqinfo) = none →
      mgh.bind (fun gh => check_app_sig gh p0.reqinfo) = none →
      (starts_with p0.reqinfo.uri "/8d47-ffc3-0f63-4b3c-c5c9-5699-6d5b-3a1f" = false ∨
        mgh.bind (fun gh => handle_bio_reports gh p0.reqinfo p0.precision_level) = none) →
      analyze_init ext mgh p0 =
        init_globalfilter_stage ext mgh p0.flows p0.precision_level
          p0.globalfilter_dec p0.reqinfo p0.stats
          (stamp_tags p0.reqinfo.secpolicy p0.itags)) := by
  refine ⟨?_, ?_, ?_, ?_, ?_, ?_⟩
  · intro gh hm hc
    subst hm
    exact analyze_init_c3650_short ext gh p0 hc
  · intro rr h1 hty hbody
    rw [analyze_init_c3650_fall ext mgh p0 h1]
    exact init_body_short _ _ _ _ _ _ _ _ rr hty hbody
  · intro d h1 h2 h3
    rw [analyze_init_c3650_fall ext mgh p0 h1]
    rw [init_body_fall _ _ _ _ _ _ _ _ h2]
    exact init_phase02_short _ _ _ _ _ _ _ _ d h3
  · intro d h1 h2 h3 h4
    rw [analyze_init_c3650_fall ext mgh p0 h1]
    rw [init_body_fall _ _ _ _ _ _ _ _ h2]
    rw [init_phase02_fall _ _ _ _ _ _ _ _ h3]
    exact init_appsig_short _ _ _ _ _ _ _ _ d h4
  · intro d h1 h2 h3 h4 h5 h6
    rw [analyze_init_c3650_fall ext mgh p0 h1]
    rw [init_body_fall _ _ _ _ _ _ _ _ h2]
    rw [init_phase02_fall _ _ _ _ _ _ _ _ h3]
    rw [init_appsig_fall _ _ _ _ _ _ _ _ h4]
    exact init_bio_short _ _ _ _ _ _ _ _ d h5 h6
  · intro h1 h2 h3 h4 h5
    rw [analyze_init_c3650_fall ext mgh p0 h1]
    rw [init_body_fall _ _ _ _ _ _ _ _ h2]
    rw [init_phase02_fall _ _ _ _ _ _ _ _ h3]
    rw [init_appsig_fall _ _ _ _ _ _ _ _ h4]
    exact init_bio_fall _ _ _ _ _ _ _ _ h5

/-- Witness for C5: the passive-challenge dispatch fires on a `/c3650cdf`
path even though the body-malformed condition also holds (earliest wins). -/
theorem C5_init_dispatch_order_witness :
    analyze_init trivExt (some (okGrasshopper sampleGHResp "t"))
      ⟨0, SimpleDecision.Pass, PrecisionLevel.Active, sampleItags,
        ⟨[], [], "203.0.113.8", none, "/c3650cdf/x",
          BodyDecodingResult.DecodingFailed "bad utf-8",
          { sampleSecpol with content_filter_profile :=
              { sampleCfProfile with content_type := ["application/json"] } }⟩, []⟩ =
      initRes
        (challenge_phase01 (okGrasshopper sampleGHResp "t")
          ⟨[], [], "203.0.113.8", none, "/c3650cdf/x",
            BodyDecodingResult.DecodingFailed "bad utf-8",
            { sampleSecpol with content_filter_profile :=
                { sampleCfProfile with content_type := ["application/json"] } }⟩
          [] GHMode.Passive)
        (stamp_tags
          { sampleSecpol with content_filter_profile :=
              { sampleCfProfile with content_type := ["application/json"] } }
          sampleItags)
        ⟨[], [], "203.0.113.8", none, "/c3650cdf/x",
          BodyDecodingResult.DecodingFailed "bad utf-8",
          { sampleSecpol with content_filter_profile :=
              { sampleCfProfile with content_type := ["application/json"] } }⟩
        [] :=
  (C5_init_dispatch_order trivExt (some (okGrasshopper sampleGHResp "t")) _).1
    (okGrasshopper sampleGHResp "t") rfl (by decide)

/-! ## C2 -/

/-- C2 (code-bug evidence): the path that is exactly the 39-character
bio-report prefix `/8d47-ffc3-0f63-4b3c-c5c9-5699-6d5b-3a1` matches the
prefix checked inside `handle_bio_reports` (which would return a decision,
the detector succeeding), yet `analyze_init` does not dispatch to it and
instead continues to the global-filter stage, because its gate tests the
40-character prefix ending in `f`. -/
theorem C2_bio_gate_mismatch :
    starts_with "/8d47-ffc3-0f63-4b3c-c5c9-5699-6d5b-3a1" bioReportUri = true ∧
    (handle_bio_reports (okGrasshopper sampleGHResp "tok")
      (sampleReq "/8d47-ffc3-0f63-4b3c-c5c9-5699-6d5b-3a1")
      PrecisionLevel.Active).isSome = true ∧
    starts_with "/8d47-ffc3-0f63-4b3c-c5c9-5699-6d5b-3a1"
      "/8d47-ffc3-0f63-4b3c-c5c9-5699-6d5b-3a1f" = false ∧
    analyze_init trivExt (some (okGrasshopper sampleGHResp "tok"))
      (sampleP0 "/8d47-ffc3-0f63-4b3c-c5c9-5699-6d5b-3a1") =
      init_globalfilter_stage trivExt (some (okGrasshopper sampleGHResp "tok")) 0
        PrecisionLevel.Active SimpleDecision.Pass
        (sampleReq "/8d47-ffc3-0f63-4b3c-c5c9-5699-6d5b-3a1") []
        (stamp_tags sampleSecpol sampleItags) :=
  ⟨by decide, by decide, by decide, by rfl⟩

/-! ## C3 -/

/-- Failure test for `Except`. -/
def exceptFailed {α : Type} : Except String α → Bool
  | .error _ => true
  | .ok _ => false

/-- A sample analysis info carried across the phases. -/
def sampleInfo : AnalysisInfo :=
  ⟨PrecisionLevel.Active, Decision.pass [], sampleReq "/", [], sampleItags⟩

/-- A redis environment whose connection and query succeed. -/
def upRedis : RedisEnv :=
  ⟨Except.ok (), Except.ok [some 3], fun _ fl => fl, fun _ ll => ll⟩

/-- C3: `analyze_query` fails open: its `AnalysisInfo` is always passed
through unchanged; on connection failure or pipelined-query failure it
returns a phase 2 with empty flow-result and limit-result lists; and when
both input lists are empty it returns the same empty phase 2 without
depending on the redis environment at all (no I/O). -/
theorem C3_query_fail_open (env env2 : RedisEnv) (p1 : APhase1) :
    ((analyze_query env p1).info = p1.info) ∧
    (exceptFailed env.conn = true ∨ exceptFailed env.execRes = true →
      analyze_query env p1 = ⟨[], [], p1.info⟩) ∧
    (p1.flows = [] → p1.limits = [] →
      analyze_query env p1 = ⟨[], [], p1.info⟩ ∧
      analyze_query env p1 = analyze_query env2 p1) := by
  refine ⟨?_, ?_, ?_⟩
  · unfold analyze_query
    by_cases he : (p1.flows.isEmpty && p1.limits.isEmpty) = true
    · rw [if_pos he]
    · rw [if_neg he]
      cases hc : env.conn with
      | error e => rfl
      | ok u =>
        cases u
        cases hx : env.execRes with
        | error e => rfl
        | ok lst => rfl
  · intro h
    unfold analyze_query
    by_cases he : (p1.flows.isEmpty && p1.limits.isEmpty) = true
    · rw [if_pos he]
    · rw [if_neg he]
      cases hc : env.conn with
      | error e => rfl
      | ok u =>
        cases u
        cases hx : env.execRes with
        | error e => rfl
        | ok lst =>
          exfalso
          rcases h with h | h
          · rw [hc] at h
            simp [exceptFailed] at h
          · rw [hx] at h
            simp [exceptFailed] at h
  · intro hf hl
    have he : (p1.flows.isEmpty && p1.limits.isEmpty) = true := by
      rw [hf, hl]
      rfl
    constructor
    · unfold analyze_query
      rw [if_pos he]
    · unfold analyze_query
      rw [if_pos he, if_pos he]

/-- Witness for C3 at a failing redis connection and at empty query lists:
the empty phase 2 is returned, identical to the one under a healthy redis. -/
theorem C3_query_fail_open_witness :
    analyze_query downRedis ⟨[], [], sampleInfo⟩ =
      (⟨[], [], sampleInfo⟩ : APhase2) ∧
    analyze_query downRedis ⟨[], [], sampleInfo⟩ =
      analyze_query upRedis ⟨[], [], sampleInfo⟩ :=
  (C3_query_fail_open downRedis upRedis ⟨[], [], sampleInfo⟩).2.2 rfl rfl

/-! ## C4 -/

/-- C4: in `analyze_finish`, when the content-filter check returns a
`CfBlock` and the policy has `content_filter_active = false`, every reason
of the resulting content-filter decision is demoted to inactive; when the
`CfBlock` was blocking the action is still built, but with its `block_mode`
ANDed with `content_filter_active` — hence `block_mode = false`; when it
was not blocking no action is built. -/
theorem C4_cf_monitor_mode (secpol : SecurityPolicy) (pl : PrecisionLevel)
    (mgh : Option Grasshopper) (ri : RequestInfo) (cfblock : CfBlock) (tags : Tags)
    (hin : secpol.content_filter_active = false) :
    ((cf_decision_of secpol pl mgh ri cfblock tags).1.reasons =
      cfblock.reasons.map (fun r => { r with decision := r.decision.inactive })) ∧
    (cfblock.blocking = true →
      ∃ a : Action, (cf_decision_of secpol pl mgh ri cfblock tags).1.maction = some a ∧
        a.block_mode = false) ∧
    (cfblock.blocking = false →
      (cf_decision_of secpol pl mgh ri cfblock tags).1.maction = none) := by
  by_cases hb : cfblock.blocking = true
  · refine ⟨?_, ?_, ?_⟩
    · simp [cf_decision_of, SimpleAction.to_decision, Decision.action, hin, hb]
    · intro _
      have hm : (cf_decision_of secpol pl mgh ri cfblock tags).1.maction =
          some ⟨secpol.content_filter_profile.action.atype,
            secpol.content_filter_profile.action.block_mode && false, none,
            secpol.content_filter_profile.action.status,
            secpol.content_filter_profile.action.content, none⟩ := by
        simp [cf_decision_of, SimpleAction.to_decision, Decision.action, hin, hb]
      exact ⟨_, hm, Bool.and_false _⟩
    · intro hb2
      rw [hb] at hb2
      cases hb2
  · simp only [Bool.not_eq_true] at hb
    refine ⟨?_, ?_, ?_⟩
    · simp [cf_decision_of, Decision.pass, hin, hb]
    · intro hcontra
      rw [hcontra] at hb
      cases hb
    · intro _
      simp [cf_decision_of, Decision.pass, hin, hb]

/-- A policy in content-filter monitor mode. -/
def secpolMonitor : SecurityPolicy := { sampleSecpol with content_filter_active := false }

/-- A blocking content-filter outcome with one blocking reason. -/
def cfblockW : CfBlock :=
  ⟨true, [⟨"content_filter", "sqli", BDecision.Blocking, [Location.Attrs]⟩]⟩

/-- Witness for C4: a blocking `CfBlock` under `content_filter_active =
false` yields the demoted reason and an action with `block_mode = false`. -/
theorem C4_cf_monitor_mode_witness :
    ((cf_decision_of secpolMonitor PrecisionLevel.Active none (sampleReq "/")
        cfblockW sampleItags).1.reasons =
      [⟨"content_filter", "sqli", BDecision.InactiveBlocking, [Location.Attrs]⟩]) ∧
    (∃ a : Action,
      (cf_decision_of secpolMonitor PrecisionLevel.Active none (sampleReq "/")
        cfblockW sampleItags).1.maction = some a ∧ a.block_mode = false) := by
  have h := C4_cf_monitor_mode secpolMonitor PrecisionLevel.Active none (sampleReq "/")
    cfblockW sampleItags rfl
  refine ⟨?_, h.2.1 rfl⟩
  rw [h.1]
  rfl

/-! ## C10 -/

/-- C10 (amended): in `analyze_finish`, whenever the ACL evaluation yields
a decision with `challenge = true` and the earlier bypass return does not
apply (`acl_active = false` or the stage is not `Bypass`), the ACL stage
short-circuits at the challenge branch even when `acl_active = false`: with
a detector present it returns the merged `challenge_phase01` (Active)
decision, and with no detector it applies the ACL profile's action; the
inactive demotion of the ACL reason does not prevent this short-circuit. -/
theorem C10_acl_challenge_short (ext : Ext) (mgh : Option Grasshopper)
    (cfrules : CfRulesArg) (pl : PrecisionLevel) (reqinfo : RequestInfo)
    (cumulated : Decision) (tags : Tags) (stats : Stats) (d : AclDecision)
    (hacl : ext.check_acl tags reqinfo.secpolicy.acl_profile pl.is_human = some d)
    (hch : d.challenge = true)
    (hnb : reqinfo.secpolicy.acl_active = false ∨ (d.stage == AclStage.Bypass) = false) :
    acl_stage ext mgh cfrules pl reqinfo cumulated tags stats =
      (let secpol := reqinfo.secpolicy
       let br0 := BlockReason.acl d.tags d.stage
       let br := if !secpol.acl_active then { br0 with decision := br0.decision.inactive }
                 else br0
       let cum2 := merge_decisions cumulated (Decision.pass [br])
       let tags2 :=
         if !secpol.acl_profile.tags.isEmpty then
           let locs := cum2.reasons.flatMap (fun r => r.location)
           secpol.acl_profile.tags.foldl (fun t s => t.insert_locs s locs) tags
         else tags
       let dt :=
         match mgh with
         | some gh => (challenge_phase01 gh reqinfo [] GHMode.Active, tags2)
         | none => acl_block secpol pl mgh reqinfo tags2
       ⟨merge_decisions cum2 dt.1, dt.2, masking reqinfo, (stats.acl 1).acl_stage_build⟩) := by
  have hcond : (reqinfo.secpolicy.acl_active && (d.stage == AclStage.Bypass)) = false := by
    rcases hnb with h | h
    · rw [h]
      rfl
    · rw [h]
      exact Bool.and_false _
  unfold acl_stage
  simp only [hacl, Option.isSome_some, if_true, hcond, hch, Bool.false_eq_true, if_false]

/-- An external environment whose ACL evaluation yields a deny decision
with `challenge = true`. -/
def denyChallengeExt : Ext :=
  { trivExt with check_acl := fun _ _ _ => some ⟨AclStage.Deny, ["denytag"], true⟩ }

/-- A request bound to a policy with `acl_active = false`. -/
def inactiveAclReq : RequestInfo :=
  { sampleReq "/" with secpolicy := { sampleSecpol with acl_active := false } }

/-- Witness for the amended C10: with `acl_active = false`, a deny/challenge
ACL decision and a detector present, the ACL stage returns the merged
phase-01 challenge decision (status 247) with the demoted ACL reason. -/
theorem C10_acl_challenge_short_witness :
    acl_stage denyChallengeExt (some (okGrasshopper sampleGHResp "t"))
      (CfRulesArg.Get none) PrecisionLevel.Active inactiveAclReq
      (Decision.pass []) sampleItags [] =
      ⟨⟨some ⟨ActionType.Block, true, some [("X", "Y")], 247, "chal-body",
          some ["challenge_phase01"]⟩,
        [⟨"acl", "denytag", BDecision.InactiveBlocking, [Location.Request]⟩]⟩,
       sampleItags, inactiveAclReq, ["acl:1", "acl_stage_build"]⟩ := by
  have h := C10_acl_challenge_short denyChallengeExt
    (some (okGrasshopper sampleGHResp "t")) (CfRulesArg.Get none)
    PrecisionLevel.Active inactiveAclReq (Decision.pass []) sampleItags []
    ⟨AclStage.Deny, ["denytag"], true⟩ rfl rfl (Or.inl rfl)
  rw [h]
  rfl

/-- An external environment whose ACL evaluation yields a bypass decision
that also carries `challenge = true`. -/
def bypassChallengeExt : Ext :=
  { trivExt with check_acl := fun _ _ _ => some ⟨AclStage.Bypass, [], true⟩ }

/-- C10 counterexample: with `acl_active = true`, an ACL decision with
`challenge = true` but stage `Bypass`, and a detector present whose
`init_challenge` succeeds, `analyze_finish` does not return the merged
`challenge_phase01` decision: it returns at the earlier bypass branch with
no action at all. -/
theorem C10_bypass_counterexample :
    (bypassChallengeExt.check_acl sampleItags sampleAclProfile true =
      some ⟨AclStage.Bypass, [], true⟩) ∧
    sampleInfo.reqinfo.secpolicy.acl_active = true ∧
    ((analyze_finish bypassChallengeExt (some (okGrasshopper sampleGHResp "t"))
      (CfRulesArg.Get none) ⟨[], [], sampleInfo⟩).decision.maction = none) :=
  ⟨rfl, rfl, rfl⟩

/-! ## C1: tag monotonicity through the pipeline -/

/-- The tag behaviour the spec ascribes to the external collaborators that
receive `&mut tags`: they only ever insert tags ("Tags inserted by
different stages must survive"). -/
def ExtTagMonotone (ext : Ext) : Prop :=
  (∀ (s : Stats) (fr : List FlowResult) (t : Tags),
    t.subsetOf (ext.flow_process s fr t).2) ∧
  (∀ (s : Stats) (lr : List LimitResult) (t : Tags),
    t.subsetOf (ext.limit_process s lr t).2.2) ∧
  (∀ (s : Stats) (t : Tags) (ri : RequestInfo) (p : ContentFilterProfile)
      (mr : Option ContentFilterRules),
    t.subsetOf (ext.content_filter_check s t ri p mr).2.2)

theorem tagsOf_initRes (d : Decision) (t : Tags) (ri : RequestInfo) (s : Stats) :
    (initRes d t ri s).tagsOf = t := rfl

theorem subset_init_globalfilter (ext : Ext) (mgh : Option Grasshopper)
    (flows : FlowMap) (pl : PrecisionLevel) (gfd : SimpleDecision)
    (reqinfo : RequestInfo) (stats : Stats) (tags : Tags) :
    tags.subsetOf (init_globalfilter_stage ext mgh flows pl gfd reqinfo stats tags).tagsOf := by
  unfold init_globalfilter_stage
  cases gfd with
  | Pass => exact Tags.subsetOf_refl tags
  | Action a r =>
    by_cases hf : ((a.to_decision pl mgh reqinfo tags r).1.is_final) = true
    · simp only [hf, if_true]
      exact subset_to_decision a pl mgh reqinfo tags r
    · simp only [hf, Bool.false_eq_true, if_false]
      exact subset_to_decision a pl mgh reqinfo tags r

theorem subset_init_bio (ext : Ext) (mgh : Option Grasshopper)
    (flows : FlowMap) (pl : PrecisionLevel) (gfd : SimpleDecision)
    (reqinfo : RequestInfo) (stats : Stats) (tags : Tags) :
    tags.subsetOf (init_bio_stage ext mgh flows pl gfd reqinfo stats tags).tagsOf := by
  unfold init_bio_stage
  split
  · split
    · exact Tags.subsetOf_refl tags
    · exact subset_init_globalfilter ext mgh flows pl gfd reqinfo stats tags
  · exact subset_init_globalfilter ext mgh flows pl gfd reqinfo stats tags

theorem subset_init_appsig (ext : Ext) (mgh : Option Grasshopper)
    (flows : FlowMap) (pl : PrecisionLevel) (gfd : SimpleDecision)
    (reqinfo : RequestInfo) (stats : Stats) (tags : Tags) :
    tags.subsetOf (init_appsig_stage ext mgh flows pl gfd reqinfo stats tags).tagsOf := by
  unfold init_appsig_stage
  split
  · split
    · exact Tags.subsetOf_refl tags
    · exact subset_init_bio ext mgh flows pl gfd reqinfo stats tags
  · exact subset_init_bio ext mgh flows pl gfd reqinfo stats tags

theorem subset_init_phase02 (ext : Ext) (mgh : Option Grasshopper)
    (flows : FlowMap) (pl : PrecisionLevel) (gfd : SimpleDecision)
    (reqinfo : RequestInfo) (stats : Stats) (tags : Tags) :
    tags.subsetOf (init_phase02_stage ext mgh flows pl gfd reqinfo stats tags).tagsOf := by
  unfold init_phase02_stage
  split
  · split
    · exact Tags.subsetOf_refl tags
    · exact subset_init_appsig ext mgh flows pl gfd reqinfo stats tags
  · exact subset_init_appsig ext mgh flows pl gfd reqinfo stats tags

theorem Tags.subset_ite_foldl (c : Prop) [inst : Decidable c] (ts : List String)
    (L : List Location) (t0 : Tags) :
    t0.subsetOf (if c then ts.foldl (fun t s => t.insert_locs s L) t0 else t0) := by
  split
  · exact Tags.subset_foldl _ (fun t s => Tags.subset_insert_locs t s L) ts t0
  · exact Tags.subsetOf_refl t0

theorem subset_acl_block (secpol : SecurityPolicy) (pl : PrecisionLevel)
    (mgh : Option Grasshopper) (ri : RequestInfo) (tags : Tags) :
    tags.subsetOf (acl_block secpol pl mgh ri tags).2 :=
  subset_to_decision secpol.acl_profile.action pl mgh ri tags []

theorem subset_init_body (ext : Ext) (mgh : Option Grasshopper)
    (flows : FlowMap) (pl : PrecisionLevel) (gfd : SimpleDecision)
    (reqinfo : RequestInfo) (stats : Stats) (tags : Tags) :
    tags.subsetOf (init_body_stage ext mgh flows pl gfd reqinfo stats tags).tagsOf := by
  by_cases hty : reqinfo.secpolicy.content_filter_profile.content_type.isEmpty = true
  · rw [init_body_fall ext mgh flows pl gfd reqinfo stats tags (Or.inl hty)]
    exact subset_init_phase02 ext mgh flows pl gfd reqinfo stats tags
  · simp only [Bool.not_eq_true] at hty
    cases hbd : reqinfo.body_decoding with
    | Decoded =>
      rw [init_body_fall ext mgh flows pl gfd reqinfo stats tags (Or.inr hbd)]
      exact subset_init_phase02 ext mgh flows pl gfd reqinfo stats tags
    | DecodingFailed rr =>
      rw [init_body_short ext mgh flows pl gfd reqinfo stats tags rr hty hbd]
      exact Tags.subsetOf_trans (subset_to_decision _ pl mgh reqinfo tags _)
        (Tags.subset_foldl _ (fun t s => Tags.subset_insert t s Location.Body) _ _)

theorem subset_analyze_init (ext : Ext) (mgh : Option Grasshopper) (p0 : APhase0) :
    p0.itags.subsetOf (analyze_init ext mgh p0).tagsOf := by
  have hstamp := subset_stamp_tags p0.reqinfo.secpolicy p0.itags
  cases mgh with
  | none =>
    rw [analyze_init_c3650_fall ext none p0 (Or.inr rfl)]
    exact Tags.subsetOf_trans hstamp (subset_init_body ext none p0.flows
      p0.precision_level p0.globalfilter_dec p0.reqinfo p0.stats _)
  | some gh =>
    by_cases hc : starts_with p0.reqinfo.uri "/c3650cdf" = true
    · rw [analyze_init_c3650_short ext gh p0 hc]
      exact hstamp
    · simp only [Bool.not_eq_true] at hc
      rw [analyze_init_c3650_fall ext (some gh) p0 (Or.inl hc)]
      exact Tags.subsetOf_trans hstamp (subset_init_body ext (some gh) p0.flows
        p0.precision_level p0.globalfilter_dec p0.reqinfo p0.stats _)

theorem analyze_query_info (env : RedisEnv) (p1 : APhase1) :
    (analyze_query env p1).info = p1.info := by
  unfold analyze_query
  by_cases he : (p1.flows.isEmpty && p1.limits.isEmpty) = true
  · rw [if_pos he]
  · rw [if_neg he]
    cases hc : env.conn with
    | error e => rfl
    | ok u =>
      cases u
      cases hx : env.execRes with
      | error e => rfl
      | ok lst => rfl

theorem subset_cf_decision (secpol : SecurityPolicy) (pl : PrecisionLevel)
    (mgh : Option Grasshopper) (ri : RequestInfo) (cfblock : CfBlock) (tags : Tags) :
    tags.subsetOf (cf_decision_of secpol pl mgh ri cfblock tags).2 := by
  have hins : ∀ (L : List Location) (ts : List String) (t0 : Tags),
      t0.subsetOf (ts.foldl (fun t s => t.insert_locs s L) t0) :=
    fun L ts t0 => Tags.subset_foldl _ (fun t s => Tags.subset_insert_locs t s L) ts t0
  by_cases hcb : cfblock.blocking = true
  · by_cases htg : secpol.content_filter_profile.tags.isEmpty = true
    · simp only [cf_decision_of, hcb, htg, Bool.not_true, Bool.false_eq_true, if_false, if_true]
      exact subset_to_decision _ pl mgh ri tags _
    · simp only [Bool.not_eq_true] at htg
      simp only [cf_decision_of, hcb, htg, Bool.not_false, if_true]
      exact Tags.subsetOf_trans (hins _ _ _) (subset_to_decision _ pl mgh ri _ _)
  · simp only [Bool.not_eq_true] at hcb
    by_cases htg : secpol.content_filter_profile.tags.isEmpty = true
    · simp only [cf_decision_of, hcb, htg, Bool.not_true, Bool.false_eq_true, if_false]
      exact Tags.subsetOf_refl tags
    · simp only [Bool.not_eq_true] at htg
      simp only [cf_decision_of, hcb, htg, Bool.not_false, if_true, Bool.false_eq_true, if_false]
      exact hins _ _ _

theorem subset_content_filter_stage (ext : Ext) (mgh : Option Grasshopper)
    (cfrules : CfRulesArg) (pl : PrecisionLevel) (reqinfo : RequestInfo)
    (cumulated : Decision) (tags : Tags) (stats : Stats)
    (hcf : ∀ (s : Stats) (t : Tags) (ri : RequestInfo) (p : ContentFilterProfile)
      (mr : Option ContentFilterRules),
      t.subsetOf (ext.content_filter_check s t ri p mr).2.2) :
    tags.subsetOf
      (content_filter_stage ext mgh cfrules pl reqinfo cumulated tags stats).tags := by
  cases cfrules with
  | Get r =>
    simp only [content_filter_stage]
    cases hres : (ext.content_filter_check stats tags reqinfo
        reqinfo.secpolicy.content_filter_profile r).1 with
    | ok u =>
      cases u
      exact hcf _ _ _ _ _
    | error cfblock =>
      exact Tags.subsetOf_trans (hcf _ _ _ _ _)
        (subset_cf_decision reqinfo.secpolicy pl mgh reqinfo cfblock _)
  | Global =>
    cases hdb : ext.hsdb with
    | error e =>
      simp only [content_filter_stage, hdb]
      exact Tags.subsetOf_refl tags
    | ok rd =>
      simp only [content_filter_stage, hdb]
      cases hres : (ext.content_filter_check stats tags reqinfo
          reqinfo.secpolicy.content_filter_profile
          (rd reqinfo.secpolicy.content_filter_profile.id)).1 with
      | ok u =>
        cases u
        exact hcf _ _ _ _ _
      | error cfblock =>
        exact Tags.subsetOf_trans (hcf _ _ _ _ _)
          (subset_cf_decision reqinfo.secpolicy pl mgh reqinfo cfblock _)

set_option maxHeartbeats 2000000 in
theorem subset_acl_stage (ext : Ext) (mgh : Option Grasshopper)
    (cfrules : CfRulesArg) (pl : PrecisionLevel) (reqinfo : RequestInfo)
    (cumulated : Decision) (tags : Tags) (stats : Stats)
    (hcf : ∀ (s : Stats) (t : Tags) (ri : RequestInfo) (p : ContentFilterProfile)
      (mr : Option ContentFilterRules),
      t.subsetOf (ext.content_filter_check s t ri p mr).2.2) :
    tags.subsetOf (acl_stage ext mgh cfrules pl reqinfo cumulated tags stats).tags := by
  cases hacl : ext.check_acl tags reqinfo.secpolicy.acl_profile pl.is_human with
  | none =>
    simp only [acl_stage, hacl]
    exact subset_content_filter_stage ext mgh cfrules pl reqinfo cumulated tags _ hcf
  | some decision =>
    simp only [acl_stage, hacl, Option.isSome_some, if_true]
    repeat' split
    all_goals first
      | exact Tags.subset_ite_foldl _ _ _ _
      | exact Tags.subset_foldl _ (fun t s => Tags.subset_insert_locs t s _) _ _
      | exact Tags.subsetOf_refl tags
      | exact Tags.subsetOf_trans (Tags.subset_ite_foldl _ _ _ _)
          (subset_acl_block reqinfo.secpolicy pl none reqinfo _)
      | exact Tags.subsetOf_trans
          (Tags.subset_foldl _ (fun t s => Tags.subset_insert_locs t s _) _ _)
          (subset_acl_block reqinfo.secpolicy pl none reqinfo _)
      | exact subset_acl_block reqinfo.secpolicy pl none reqinfo _
      | exact Tags.subsetOf_trans (Tags.subset_ite_foldl _ _ _ _)
          (subset_content_filter_stage ext _ cfrules pl reqinfo _ _ _ hcf)
      | exact Tags.subsetOf_trans
          (Tags.subset_foldl _ (fun t s => Tags.subset_insert_locs t s _) _ _)
          (subset_content_filter_stage ext _ cfrules pl reqinfo _ _ _ hcf)
      | exact subset_content_filter_stage ext _ cfrules pl reqinfo _ _ _ hcf

theorem subset_analyze_finish (ext : Ext) (mgh : Option Grasshopper)
    (cfrules : CfRulesArg) (p2 : APhase2) (hmono : ExtTagMonotone ext) :
    p2.info.tags.subsetOf (analyze_finish ext mgh cfrules p2).tags := by
  obtain ⟨hflow, hlimit, hcf⟩ := hmono
  have h1 := hflow p2.info.stats p2.flows p2.info.tags
  have h2 := hlimit (ext.flow_process p2.info.stats p2.flows p2.info.tags).1 p2.limits
    (ext.flow_process p2.info.stats p2.flows p2.info.tags).2
  have h12 := Tags.subsetOf_trans h1 h2
  simp only [analyze_finish]
  split
  · next action curbrs heq =>
    have h3 := subset_to_decision action p2.info.precision_level mgh p2.info.reqinfo
      (ext.limit_process (ext.flow_process p2.info.stats p2.flows p2.info.tags).1 p2.limits
        (ext.flow_process p2.info.stats p2.flows p2.info.tags).2).2.2 curbrs
    have h123 := Tags.subsetOf_trans h12 h3
    split
    · exact h123
    · exact Tags.subsetOf_trans h123
        (subset_acl_stage ext mgh cfrules p2.info.precision_level p2.info.reqinfo _ _ _ hcf)
  · exact Tags.subsetOf_trans h12
      (subset_acl_stage ext mgh cfrules p2.info.precision_level p2.info.reqinfo _ _ _ hcf)

/-- C1: for every input `APhase0` and every path through the pipeline
(short-circuit in `analyze_init` or full run through `analyze_finish`),
the returned tag set contains every tag present in `p0.itags`: the
pipeline only inserts tags, it never removes one.  The hypothesis states
the spec's tag contract for the external collaborators that receive
`&mut tags`. -/
theorem C1_tags_superset (ext : Ext) (env : RedisEnv) (mgh : Option Grasshopper)
    (p0 : APhase0) (cfrules : CfRulesArg) (hmono : ExtTagMonotone ext) :
    p0.itags.subsetOf (analyze ext env mgh p0 cfrules).tags := by
  unfold analyze
  have hinit := subset_analyze_init ext mgh p0
  cases hres : analyze_init ext mgh p0 with
  | Res r =>
    rw [hres] at hinit
    exact hinit
  | Phase1 p1 =>
    rw [hres] at hinit
    have hq : (analyze_query env p1).info = p1.info := analyze_query_info env p1
    have hfin := subset_analyze_finish ext mgh cfrules (analyze_query env p1) hmono
    rw [hq] at hfin
    exact Tags.subsetOf_trans hinit hfin

/-- Witness for C1: the initial tag `itag` is still present in the final
tag set of a full pipeline run over the trivial externals. -/
theorem C1_tags_superset_witness :
    sampleItags.hasTag "itag" = true ∧
    (analyze trivExt downRedis none (sampleP0 "/index.html") CfRulesArg.Global).tags.hasTag
      "itag" = true := by
  refine ⟨rfl, ?_⟩
  refine C1_tags_superset trivExt downRedis none (sampleP0 "/index.html") CfRulesArg.Global
    ⟨?_, ?_, ?_⟩ "itag" rfl
  · intro s fr t
    exact Tags.subsetOf_refl t
  · intro s lr t
    exact Tags.subsetOf_refl t
  · intro s t ri p mr
    exact Tags.subsetOf_refl t

end Curiefense
